import Mathlib

set_option maxHeartbeats 1000000

/-!
Shallow embedding of the CyBot complaint core (intent recognition and
slot-filling state machine) together with theorems settling the frozen
claims about its specification.

The definitions below transcribe the Python sources:
  * `main.py` — field validators, `handle_complaint_filing`, retrieval,
    and the per-turn dispatch block;
  * `utils/complaint/state.py` — `ConversationState`;
  * `utils/complaint/handler.py` — `ComplaintHandler.extract_complaint_id`;
  * `utils/complaint/intent.py` — `IntentRecognizer`.

Regular expressions are embedded by explicit backtracking matchers over
`List Char` with Python `re` semantics (leftmost start position, ordered
alternation, greedy repetition with backtracking).  External collaborators
(the ticketing API, the fuzzy comparison scores from rapidfuzz, the spaCy
keyword/verb signal, the LLM, the datetime library) are modelled as oracle
parameters, since their behaviour is outside this core.  Character classes
are modelled over ASCII, matching every input that occurs in this
development.
-/

/-! ## Character classes (Python `re` over ASCII) -/

/-- Python `\s` (ASCII range): space, tab, newline, carriage return,
vertical tab, form feed. -/
def isPySpace (c : Char) : Bool :=
  c == ' ' || c == '\t' || c == '\n' || c == '\r' || c == '\x0b' || c == '\x0c'

/-- Python `\w` (ASCII range): letters, digits, underscore. -/
def wordChar (c : Char) : Bool :=
  c.isAlpha || c.isDigit || c == '_'

/-- `[A-Z0-9]` under `re.IGNORECASE`: ASCII alphanumeric. -/
def isAlnum (c : Char) : Bool :=
  c.isAlpha || c.isDigit

/-! ## FieldValidator: `validate_phone` (main.py lines 164-180) -/

/-- The separator class removed by `re.sub(r'[\s\-\(\)\.]', '', phone)`. -/
def sepChar (c : Char) : Bool :=
  isPySpace c || c == '-' || c == '(' || c == ')' || c == '.'

/-- Fullmatch of `\d{10}`: exactly ten digit characters. -/
def exactTenDigits (l : List Char) : Bool :=
  l.length == 10 && l.all Char.isDigit

/-- Fullmatch of `\+\d{1,3}\d{10}`: a plus sign, then a greedy 1-3 digit
country code (tried longest first, as the regex engine backtracks), then
exactly ten further digits ending the string. -/
def matchPlusCode (l : List Char) : Bool :=
  match l with
  | [] => false
  | c :: rest =>
    c == '+' && ([3, 2, 1].any fun k =>
      (rest.take k).length == k && (rest.take k).all Char.isDigit &&
        exactTenDigits (rest.drop k))

/-- `validate_phone` from main.py: strip separators, then accept a bare
ten-digit number or a `+`-prefixed country code followed by ten digits. -/
def validate_phone (phone : String) : Bool :=
  let cleaned := phone.toList.filter fun c => !sepChar c
  exactTenDigits cleaned || matchPlusCode cleaned

/-- The phone-shape predicate as the specification words it: after removing
separators, either exactly ten digits remain, or a leading `+` followed by
one to three digits followed by exactly ten more digits. -/
def phoneSpec (phone : String) : Prop :=
  let cleaned := phone.toList.filter fun c => !sepChar c
  (cleaned.length = 10 ∧ ∀ c ∈ cleaned, c.isDigit = true) ∨
  (∃ cc rest, cleaned = '+' :: (cc ++ rest) ∧
    1 ≤ cc.length ∧ cc.length ≤ 3 ∧ (∀ c ∈ cc, c.isDigit = true) ∧
    rest.length = 10 ∧ (∀ c ∈ rest, c.isDigit = true))

/-! ## Backtracking regex matchers

A matcher step takes a cursor (context character before the match, the
characters matched so far in reverse, and the remaining input) to the list
of possible successor cursors, ordered by the `re` engine's backtracking
priority (ordered alternation, greedy repetition longest-first).  A search
tries each start position left to right, mirroring `re.search`. -/

structure Cur where
  prevC : Option Char
  macc : List Char
  rest : List Char
deriving Repr, DecidableEq

/-- The character immediately before the current position. -/
def lastSeen (c : Cur) : Option Char :=
  match c.macc with
  | d :: _ => some d
  | [] => c.prevC

def isWordOpt : Option Char → Bool
  | none => false
  | some d => wordChar d

/-- Python `\b`: the word-char status changes across the position. -/
def atBoundary (c : Cur) : Bool :=
  isWordOpt (lastSeen c) != (match c.rest with
    | d :: _ => wordChar d
    | [] => false)

def bnd (c : Cur) : List Cur :=
  if atBoundary c then [c] else []

/-- A literal, compared case-insensitively (the pattern text is given in
lowercase; `Char.toLower` is the identity on non-letters, so this also
serves case-sensitive literals made of non-letters). -/
def litCI : List Char → Cur → List Cur
  | [], c => [c]
  | p :: ps, c =>
    match c.rest with
    | [] => []
    | d :: ds =>
      if d.toLower == p then litCI ps ⟨c.prevC, d :: c.macc, ds⟩ else []

/-- A single character of a class. -/
def cls (p : Char → Bool) (c : Cur) : List Cur :=
  match c.rest with
  | d :: ds => if p d then [⟨c.prevC, d :: c.macc, ds⟩] else []
  | [] => []

/-- Greedy `{lo,}` repetition of a class: successors ordered from the most
characters consumed down to `lo`. -/
def repBT (p : Char → Bool) (lo : Nat) (c : Cur) : List Cur :=
  let n := (c.rest.takeWhile p).length
  if n < lo then []
  else (List.range (n - lo + 1)).map fun i =>
    let k := n - i
    ⟨c.prevC, (c.rest.take k).reverse ++ c.macc, c.rest.drop k⟩

/-- Greedy `{lo,hi}` repetition of a class. -/
def repRange (p : Char → Bool) (lo hi : Nat) (c : Cur) : List Cur :=
  let n := Nat.min (c.rest.takeWhile p).length hi
  if n < lo then []
  else (List.range (n - lo + 1)).map fun i =>
    let k := n - i
    ⟨c.prevC, (c.rest.take k).reverse ++ c.macc, c.rest.drop k⟩

/-- Exact `{k}` repetition of a class. -/
def repN (p : Char → Bool) (k : Nat) (c : Cur) : List Cur :=
  let t := c.rest.take k
  if t.length == k && t.all p then
    [⟨c.prevC, t.reverse ++ c.macc, c.rest.drop k⟩]
  else []

/-- Greedy `(...)?`: try the group first, then skipping it. -/
def optB (f : Cur → List Cur) (c : Cur) : List Cur :=
  f c ++ [c]

/-- Ordered alternation. -/
def altB (fs : List (Cur → List Cur)) (c : Cur) : List Cur :=
  fs.bind fun f => f c

/-- Alternation over case-insensitive literals. -/
def altLits (ws : List (List Char)) (c : Cur) : List Cur :=
  ws.bind fun w => litCI w c

/-- Sequencing with depth-first backtracking order. -/
def seqs (fs : List (Cur → List Cur)) (c : Cur) : List Cur :=
  fs.foldl (fun acc f => acc.bind f) [c]

/-- `re.search` as a boolean: try the pattern at each start position. -/
def searchB (pat : Cur → List Cur) : Option Char → List Char → Bool
  | pv, [] => !(pat ⟨pv, [], []⟩).isEmpty
  | pv, d :: ds => !(pat ⟨pv, [], d :: ds⟩).isEmpty || searchB pat (some d) ds

/-- `re.search` returning the group-0 text of the first match. -/
def searchMatch (pat : Cur → List Cur) : Option Char → List Char → Option (List Char)
  | pv, [] => ((pat ⟨pv, [], []⟩).head?).map fun c => c.macc.reverse
  | pv, d :: ds =>
    match ((pat ⟨pv, [], d :: ds⟩).head?).map (fun c => c.macc.reverse) with
    | some m => some m
    | none => searchMatch pat (some d) ds

/-! ## InfoExtractor: `extract_complaint_id`
(handler.py lines 56-100) -/

/-- A trailing greedy capture `([A-Z0-9]{6,})` with nothing after it: the
maximal alphanumeric run at the position, accepted when at least 6 long. -/
def capTail (c : Cur) : Option (List Char) :=
  let run := c.rest.takeWhile isAlnum
  if 6 ≤ run.length then some run else none

/-- `re.search` for a prefix pattern followed by the trailing capture,
returning the capture of the first overall success. -/
def searchCap (pre : Cur → List Cur) : Option Char → List Char → Option (List Char)
  | pv, [] => (pre ⟨pv, [], []⟩).findSome? capTail
  | pv, d :: ds =>
    match (pre ⟨pv, [], d :: ds⟩).findSome? capTail with
    | some r => some r
    | none => searchCap pre (some d) ds

def lw (s : String) : List Char := s.toList

def lit (s : String) : Cur → List Cur := litCI s.toList

def ws1 : Cur → List Cur := repBT isPySpace 1

def ws0 : Cur → List Cur := repBT isPySpace 0

def colonEq (c : Char) : Bool := c == ':' || c == '='

/-- `(?:my|the)\s+complaint\s+id\s+(?:is|was|:)?\s*` before the capture. -/
def idPre1 : Cur → List Cur :=
  seqs [altLits [lw "my", lw "the"], ws1, lit "complaint", ws1, lit "id", ws1,
    optB (altLits [lw "is", lw "was", lw ":"]), ws0]

/-- `status\s+of\s+complaint\s+id\s*[:=]?\s*` before the capture. -/
def idPre2 : Cur → List Cur :=
  seqs [lit "status", ws1, lit "of", ws1, lit "complaint", ws1, lit "id", ws0,
    optB (cls colonEq), ws0]

/-- `complaint\s+number\s+` before the capture. -/
def idPre3 : Cur → List Cur :=
  seqs [lit "complaint", ws1, lit "number", ws1]

/-- `complaint\s+(?:id\s*[:=]?\s*)?` before the capture. -/
def idPre4 : Cur → List Cur :=
  seqs [lit "complaint", ws1, optB (seqs [lit "id", ws0, optB (cls colonEq), ws0])]

/-- `(?:id|complaint id)\s*[:=]?\s*` before the capture. -/
def idPre5 : Cur → List Cur :=
  seqs [altLits [lw "id", lw "complaint id"], ws0, optB (cls colonEq), ws0]

/-- The five anchored phrase patterns, in source order. -/
def idPatterns : List (Cur → List Cur) := [idPre1, idPre2, idPre3, idPre4, idPre5]

/-- Python `str.strip()` (whitespace at both ends). -/
def pyStrip (s : String) : String :=
  String.mk (((s.toList.dropWhile isPySpace).reverse.dropWhile isPySpace).reverse)

/-- `re.match(r'^[A-Z0-9]{6,}$', ·, re.IGNORECASE)` on the stripped text:
six or more alphanumeric characters and nothing else. -/
def fullIdShaped (l : List Char) : Bool :=
  decide (6 ≤ l.length) && l.all isAlnum

/-- Maximal runs of characters satisfying `p`. -/
def runsAux (p : Char → Bool) : List Char → List Char → List (List Char)
  | acc, [] => if acc.isEmpty then [] else [acc.reverse]
  | acc, c :: cs =>
    if p c then runsAux p (c :: acc) cs
    else if acc.isEmpty then runsAux p [] cs
    else acc.reverse :: runsAux p [] cs

/-- `re.findall(r'\b([A-Z0-9]{6,})\b', text, re.IGNORECASE)`: a match is a
maximal word-character run that is entirely alphanumeric (an embedded
underscore kills the inner word boundaries) of length at least 6. -/
def idTokens (l : List Char) : List (List Char) :=
  (runsAux wordChar [] l).filter fun r => decide (6 ≤ r.length) && r.all isAlnum

def stoplist : List String :=
  ["number", "status", "complaint", "details", "everywhere"]

/-- The fallback loop over standalone tokens: skip stoplist words and tokens
without both a digit and a letter; return the first survivor. -/
def tokenScan (l : List Char) : Option String :=
  (idTokens l).findSome? fun m =>
    if stoplist.contains (String.mk (m.map Char.toLower)) then none
    else if !(m.any Char.isDigit && m.any Char.isAlpha) then none
    else some (String.mk m)

/-- `ComplaintHandler.extract_complaint_id`: whole-trimmed-text shortcut,
then the five phrase patterns in order, then the standalone-token scan. -/
def extract_complaint_id (text : String) : Option String :=
  let stripped := pyStrip text
  if fullIdShaped stripped.toList then some stripped
  else
    match idPatterns.findSome? (fun p => searchCap p none text.toList) with
    | some cap => some (String.mk cap)
    | none => tokenScan text.toList

/-! ## FieldValidator: `validate_email` (main.py lines 152-162) and
InfoExtractor: `extract_complaint_info` (intent.py lines 154-171) -/

/-- `[a-zA-Z0-9._%+-]`, the email local-part class. -/
def localCls (c : Char) : Bool :=
  c.isAlpha || c.isDigit || c == '.' || c == '_' || c == '%' || c == '+' || c == '-'

/-- `[a-zA-Z0-9.-]`, the email domain class. -/
def domCls (c : Char) : Bool :=
  c.isAlpha || c.isDigit || c == '.' || c == '-'

/-- `[A-Z|a-z]`, the TLD class of the extraction pattern (the source class
literally includes the bar character). -/
def tldBarCls (c : Char) : Bool :=
  c.isAlpha || c == '|'

/-- The body of `^[a-zA-Z0-9._%+-]+@[a-zA-Z0-9.-]+\.[a-zA-Z]{2,}$`. -/
def emailFullPat : Cur → List Cur :=
  seqs [repBT localCls 1, lit "@", repBT domCls 1, lit ".", repBT Char.isAlpha 2]

/-- `validate_email` from main.py.  `$` also matches just before a single
trailing newline, as in Python `re`. -/
def validate_email (email : String) : Bool :=
  (emailFullPat ⟨none, [], email.toList⟩).any fun c =>
    c.rest.isEmpty || c.rest == ['\n']

/-- `\b[A-Za-z0-9._%+-]+@[A-Za-z0-9.-]+\.[A-Z|a-z]{2,}\b`. -/
def emailSearchPat : Cur → List Cur :=
  seqs [bnd, repBT localCls 1, lit "@", repBT domCls 1, lit ".", repBT tldBarCls 2, bnd]

/-- `\b\d{10}\b|\+\d{1,3}\s?\d{10}\b|\(\d{3}\)\s?\d{3}-\d{4}`. -/
def phoneSearchPat : Cur → List Cur :=
  altB [seqs [bnd, repN Char.isDigit 10, bnd],
    seqs [lit "+", repRange Char.isDigit 1 3, optB (cls isPySpace),
      repN Char.isDigit 10, bnd],
    seqs [lit "(", repN Char.isDigit 3, lit ")", optB (cls isPySpace),
      repN Char.isDigit 3, lit "-", repN Char.isDigit 4]]

/-- The transient field-candidate mapping produced from one utterance.  The
source only ever inserts the `email` and `phone` keys; the `name` component
is therefore always `none` (it mirrors the absent dict key). -/
structure ExtractedInfo where
  name : Option String
  email : Option String
  phone : Option String
deriving Repr, DecidableEq

/-- `IntentRecognizer.extract_complaint_info`: first email-shaped substring
and first phone-shaped substring of the utterance, when present. -/
def extract_complaint_info (text : String) : ExtractedInfo :=
  let email := searchMatch emailSearchPat none text.toList
  let phone := searchMatch phoneSearchPat none text.toList
  { name := none, email := email.map String.mk, phone := phone.map String.mk }

/-! ## ConversationStateStore (state.py) -/

/-- One session's in-progress complaint record.  Python stores the four
field keys with value `None` until filled; `current_field` holds the field
string being collected (read defensively with `.get`). -/
structure Draft where
  name : Option String
  phone : Option String
  email : Option String
  details : Option String
  current_field : Option String
deriving Repr, DecidableEq

/-- `ConversationState.active_complaints`: the session-keyed store. -/
abbrev CState := String → Option Draft

def setD (st : CState) (sid : String) (d : Draft) : CState :=
  fun k => if k = sid then some d else st k

def delD (st : CState) (sid : String) : CState :=
  fun k => if k = sid then none else st k

/-- Python truthiness of a stored field value: absent and `""` are falsy. -/
def truthy : Option String → Bool
  | none => false
  | some s => s != ""

def freshDraft : Draft :=
  { name := none, phone := none, email := none, details := none,
    current_field := some "name" }

/-- `start_complaint_filing`: fresh draft, `current_field = "name"`. -/
def start_complaint_filing (st : CState) (sid : String) : CState :=
  setD st sid freshDraft

/-- Assignment `active_complaints[session_id][field] = value`.  Only the
five keys below are ever assigned anywhere in the source. -/
def setField (d : Draft) (field v : String) : Draft :=
  if field = "name" then { d with name := some v }
  else if field = "phone" then { d with phone := some v }
  else if field = "email" then { d with email := some v }
  else if field = "details" then { d with details := some v }
  else if field = "current_field" then { d with current_field := some v }
  else d

/-- `update_complaint_data`: create a fresh draft first when the session has
none, then set the field. -/
def update_complaint_data (st : CState) (sid field v : String) : CState :=
  match st sid with
  | some d => setD st sid (setField d field v)
  | none => setD (start_complaint_filing st sid) sid (setField freshDraft field v)

def get_complaint_data (st : CState) (sid : String) : Option Draft :=
  st sid

/-- The first field in the fixed order whose stored value is falsy. -/
def draftNext (d : Draft) : Option String :=
  if !truthy d.name then some "name"
  else if !truthy d.phone then some "phone"
  else if !truthy d.email then some "email"
  else if !truthy d.details then some "details"
  else none

def get_next_field (st : CState) (sid : String) : Option String :=
  match st sid with
  | none => none
  | some d => draftNext d

def clear_complaint_data (st : CState) (sid : String) : CState :=
  delD st sid

def is_complaint_complete (st : CState) (sid : String) : Bool :=
  match st sid with
  | none => false
  | some d => truthy d.name && truthy d.phone && truthy d.email && truthy d.details

/-- `active_complaints[session_id]['current_field'] = next_field` (only
executed while the session's draft exists). -/
def setCurrentField (st : CState) (sid : String) (nf : Option String) : CState :=
  match st sid with
  | some d => setD st sid { d with current_field := nf }
  | none => st

/-! ## DialogueOrchestrator: `handle_complaint_filing`
(main.py lines 182-306)

The external complaint-creation API call is modelled as an oracle
`ApiResponse` parameter: the JSON dict the collaborator returns for this
submission (its own argument, the draft payload, does not influence the
modelled result). -/

/-- The create collaborator's JSON reply: presence of the `complaint_id`,
`id` and `error` keys. -/
structure ApiResponse where
  complaint_id : Option String
  id : Option String
  error : Option String
deriving Repr, DecidableEq

def namePrompt : String :=
  "To file your complaint, I'll need some information. What is your name?"

def phonePrompt : String :=
  "Thank you. What is your phone number? Please enter a 10-digit number without spaces or special characters."

def emailPrompt : String :=
  "Got it. Please provide your email address in the format name@example.com."

def detailsPrompt : String :=
  "Thanks. Now, please describe your complaint in detail."

def phoneError : String :=
  "Oops! The number you entered is not a valid phone number. Please enter a 10-digit phone number (e.g., 1234567890)."

def emailError : String :=
  "Oops! The email address you entered is not valid. Please enter a valid email address (e.g., name@example.com)."

def processingMsg : String :=
  "I'm processing your complaint. Could you please provide the requested information?"

/-- The response text chosen from the create collaborator's reply
(main.py lines 293-298). -/
def submissionResponse (cr : ApiResponse) : String :=
  match cr.complaint_id with
  | some cid =>
    "Your complaint has been registered with ID: " ++ cid ++ ". You'll hear back from us soon."
  | none =>
    match cr.id with
    | some cid =>
      "Your complaint has been registered with ID: " ++ cid ++ ". You'll hear back from us soon."
    | none =>
      "There was an issue registering your complaint: " ++ cr.error.getD "Unknown error"

/-- `for field, value in extracted_info.items(): update(...)` — the dict
gains keys in insertion order `email`, `phone` (never `name`). -/
def applyExtracted (st : CState) (sid : String) (info : ExtractedInfo) : CState :=
  let st1 := match info.email with
    | some v => update_complaint_data st sid "email" v
    | none => st
  match info.phone with
  | some v => update_complaint_data st1 sid "phone" v
  | none => st1

/-- Python `str.split()`: maximal non-whitespace runs. -/
def pyWords (s : String) : List String :=
  (runsAux (fun c => !isPySpace c) [] s.toList).map String.mk

/-- The tail of `handle_complaint_filing` (lines 286-306), reached with the
current value of `next_field`: submit-and-clear when no field is missing,
else the name prompt or the generic progress message. -/
def finishFiling (cr : ApiResponse) (nf : Option String) (st : CState) (sid : String) :
    String × CState :=
  match nf with
  | none => (submissionResponse cr, clear_complaint_data st sid)
  | some f => if f = "name" then (namePrompt, st) else (processingMsg, st)

/-- The `if input_accepted:` block (lines 269-283): recompute the next
field, advance `current_field`, and answer with that field's prompt; fall
through to `finishFiling` otherwise. -/
def afterAccept (cr : ApiResponse) (st2 : CState) (sid : String) : String × CState :=
  let nf2 := get_next_field st2 sid
  let st3 := if nf2.isSome then setCurrentField st2 sid nf2 else st2
  if nf2 = some "phone" then (phonePrompt, st3)
  else if nf2 = some "email" then (emailPrompt, st3)
  else if nf2 = some "details" then (detailsPrompt, st3)
  else finishFiling cr nf2 st3 sid

/-- `handle_complaint_filing` from main.py. -/
def handle_complaint_filing (cr : ApiResponse) (state : CState) (sid query : String) :
    String × CState :=
  let info := extract_complaint_info query
  match state sid with
  | none =>
    (namePrompt, applyExtracted (start_complaint_filing state sid) sid info)
  | some d =>
    let cf0 := d.current_field
    let nf0 := get_next_field state sid
    let cf := if !truthy cf0 && nf0.isSome then nf0 else cf0
    let st1 := if !truthy cf0 && nf0.isSome then setCurrentField state sid nf0 else state
    if truthy cf then
      if cf = some "name" then
        match info.name with
        | some v => afterAccept cr (update_complaint_data st1 sid "name" v) sid
        | none =>
          let w := pyWords (pyStrip query)
          if decide (1 ≤ w.length) && decide (w.length ≤ 3) &&
              !(query.toList.contains '@') && !(query.toList.any Char.isDigit) then
            afterAccept cr (update_complaint_data st1 sid "name" (pyStrip query)) sid
          else finishFiling cr nf0 st1 sid
      else if cf = some "phone" then
        if info.phone.any validate_phone then
          afterAccept cr (update_complaint_data st1 sid "phone" (info.phone.getD "")) sid
        else if validate_phone (pyStrip query) then
          afterAccept cr (update_complaint_data st1 sid "phone" (pyStrip query)) sid
        else (phoneError, st1)
      else if cf = some "email" then
        if info.email.any validate_email then
          afterAccept cr (update_complaint_data st1 sid "email" (info.email.getD "")) sid
        else if validate_email (pyStrip query) then
          afterAccept cr (update_complaint_data st1 sid "email" (pyStrip query)) sid
        else (emailError, st1)
      else if cf = some "details" then
        afterAccept cr (update_complaint_data st1 sid "details" (pyStrip query)) sid
      else finishFiling cr nf0 st1 sid
    else finishFiling cr nf0 st1 sid

/-! ## IntentClassifier (intent.py)

The rapidfuzz `process.extractOne` score and the spaCy keyword/verb
conjunction are external linguistic collaborators; they are modelled as
oracle fields of `IntentEnv` (an optional 0-100 score per lowered
utterance, and a boolean signal per lowered utterance guarded by the
availability flag). -/

/-- Words separated by `\s+`. -/
def wseq : List (List Char) → Cur → List Cur
  | [], c => [c]
  | [w], c => litCI w c
  | w :: ws, c => (litCI w c).bind fun c2 => (ws1 c2).bind (wseq ws)

/-- `IntentRecognizer.FILING_PATTERNS`, in source order. -/
def FILING_PATTERNS : List (Cur → List Cur) :=
  [wseq [lw "file", lw "a", lw "complaint"],
   wseq [lw "submit", lw "a", lw "complaint"],
   wseq [lw "make", lw "a", lw "complaint"],
   wseq [lw "register", lw "a", lw "complaint"],
   wseq [lw "lodge", lw "a", lw "complaint"],
   wseq [lw "raise", lw "a", lw "complaint"],
   wseq [lw "complain", lw "about"],
   seqs [lit "report", ws1, lit "a", optB (lit "n"), ws1, lit "issue"],
   wseq [lw "report", lw "a", lw "problem"]]

/-- `IntentRecognizer.RETRIEVAL_PATTERNS`, in source order. -/
def RETRIEVAL_PATTERNS : List (Cur → List Cur) :=
  [seqs [altLits [lw "get", lw "show", lw "view", lw "check", lw "retrieve"], ws1,
     optB (seqs [lit "my", ws1]),
     optB (altLits [lw "details", lw "status", lw "info"]), ws0,
     optB (altLits [lw "for", lw "of", lw "about"]), ws0,
     altLits [lw "complaint", lw "issue", lw "ticket"]],
   seqs [altLits [lw "what", lw "where"], ws1, lit "is", ws1,
     optB (seqs [lit "my", ws1]),
     altLits [lw "complaint", lw "issue", lw "ticket"]],
   seqs [lit "track", ws1, optB (seqs [lit "my", ws1]),
     altLits [lw "complaint", lw "issue", lw "ticket"]]]

/-- Oracles for the external classification collaborators. -/
structure IntentEnv where
  fuzzyFiling : String → Option Rat
  fuzzyRetrieving : String → Option Rat
  nlpAvailable : Bool
  nlpFiling : String → Bool
  nlpRetrieving : String → Bool

/-- `IntentRecognizer.is_filing_complaint`: regex patterns, then the fuzzy
score against the threshold, then the keyword/verb signal when the
linguistic model is available. -/
def is_filing_complaint (env : IntentEnv) (text : String) (threshold : Rat) : Bool :=
  if FILING_PATTERNS.any (fun p => searchB p none text.toList) then true
  else if (match env.fuzzyFiling text.toLower with
    | some score => decide (threshold * 100 ≤ score)
    | none => false) then true
  else if env.nlpAvailable && env.nlpFiling text.toLower then true
  else false

/-- `IntentRecognizer.is_retrieving_complaint`, same shape. -/
def is_retrieving_complaint (env : IntentEnv) (text : String) (threshold : Rat) : Bool :=
  if RETRIEVAL_PATTERNS.any (fun p => searchB p none text.toList) then true
  else if (match env.fuzzyRetrieving text.toLower with
    | some score => decide (threshold * 100 ≤ score)
    | none => false) then true
  else if env.nlpAvailable && env.nlpRetrieving text.toLower then true
  else false

/-! ## Retrieval path and per-turn dispatch (main.py lines 308-404) -/

/-- The fetch collaborator's JSON reply, by key presence.  `underscoreId`
stands for the `_id` key. -/
structure Fetched where
  error : Option String
  complaint_id : Option String
  underscoreId : Option String
  name : Option String
  phone_number : Option String
  email : Option String
  complaint_details : Option String
  created_at : Option String
deriving Repr, DecidableEq

/-- `ComplaintHandler.format_complaint_details`.  The `datetime`
parse-and-reformat of `created_at` is a library collaborator, modelled by
the oracle `parseTime` (`none` when parsing raises, keeping the raw
value). -/
def format_complaint_details (parseTime : String → Option String) (c : Fetched) : String :=
  let created0 := c.created_at.getD ""
  let created := if created0 = "" then created0 else
    match parseTime created0 with
    | some f => f
    | none => created0
  "**Complaint ID**: " ++ (c.complaint_id.getD (c.underscoreId.getD "N/A")) ++ "\n" ++
  "**Name**: " ++ c.name.getD "N/A" ++ "\n" ++
  "**Phone**: " ++ c.phone_number.getD "N/A" ++ "\n" ++
  "**Email**: " ++ c.email.getD "N/A" ++ "\n" ++
  "**Details**: " ++ c.complaint_details.getD "N/A" ++ "\n" ++
  "**Created At**: " ++ created

/-- `handle_complaint_retrieval`.  `extract_complaint_id` never returns an
empty string, so Python's `if not complaint_id` coincides with `none`. -/
def handle_complaint_retrieval (fetch : String → Fetched)
    (parseTime : String → Option String) (query : String) : String :=
  match extract_complaint_id query with
  | none =>
    "I couldn't identify a complaint ID in your message. Please provide a valid complaint ID."
  | some cid =>
    let complaint := fetch cid
    if complaint.error.isSome then
      "I couldn't find any complaint with ID: " ++ cid ++ ". Please verify the ID and try again."
    else
      format_complaint_details parseTime complaint

def listPrefix : List Char → List Char → Bool
  | [], _ => true
  | _ :: _, [] => false
  | a :: xs, b :: ys => a == b && listPrefix xs ys

/-- Python substring containment (`needle in hay`). -/
def subStr : List Char → List Char → Bool
  | needle, [] => listPrefix needle []
  | needle, h :: t => listPrefix needle (h :: t) || subStr needle t

/-- The collaborators the per-turn dispatcher can invoke. -/
inductive Call where
  | extractId
  | intentRetrieving
  | intentFiling
  | retrievalHandler
  | filingHandler
  | docQA
deriving Repr, DecidableEq

/-- The turn's environment: the refinement checkbox, whether the response
history is longer than one entry, the query refiner (conversation string
already applied), the intent oracles, the document retriever, the LLM
chain, and the two ticketing-API collaborators. -/
structure Env where
  refineEnabled : Bool
  historyLong : Bool
  refiner : String → String
  intent : IntentEnv
  findMatch : String → String
  predict : String → String
  createResult : ApiResponse
  fetch : String → Fetched
  parseTime : String → Option String

/-- The per-turn dispatch block (main.py lines 350-400), with a trace of
the dispatcher-level collaborators invoked on the turn.  A stored draft
dict always has its five keys, so its Python truthiness is `isSome`.  The
intent checks run with the default threshold `0.7`. -/
def dispatch (env : Env) (st : CState) (sid query : String) :
    String × CState × List Call :=
  let useRefined := env.refineEnabled && env.historyLong
  let refined := env.refiner query
  let query_for_intent := if useRefined then refined else query
  if (st sid).isSome then
    let r := handle_complaint_filing env.createResult st sid query
    (r.1, r.2, [Call.filingHandler])
  else
    let complaint_id := extract_complaint_id query
    let is_retrieval_intent := is_retrieving_complaint env.intent query_for_intent (7 / 10)
    if complaint_id.isSome &&
        (is_retrieval_intent || subStr "complaint".toList query_for_intent.toLower.toList) then
      (handle_complaint_retrieval env.fetch env.parseTime query, st,
        [Call.extractId, Call.intentRetrieving, Call.retrievalHandler])
    else if is_filing_complaint env.intent query_for_intent (7 / 10) then
      let r := handle_complaint_filing env.createResult st sid query
      (r.1, r.2, [Call.extractId, Call.intentRetrieving, Call.intentFiling, Call.filingHandler])
    else if is_retrieval_intent then
      (handle_complaint_retrieval env.fetch env.parseTime query, st,
        [Call.extractId, Call.intentRetrieving, Call.intentFiling, Call.retrievalHandler])
    else
      let ctx := if useRefined then env.findMatch refined else env.findMatch query
      let inputForLlm :=
        if useRefined then "Context:\n " ++ ctx ++ " \n\n Query:\n" ++ refined
        else "Context:\n " ++ ctx ++ " \n\n Query:\n" ++ query
      (env.predict inputForLlm, st,
        [Call.extractId, Call.intentRetrieving, Call.intentFiling, Call.docQA])

/-! ## Theorems for claims C4 and C5 -/

theorem sepChar_not_digit {c : Char} (h : sepChar c = true) : c.isDigit = false := by
  simp only [sepChar, isPySpace, Bool.or_eq_true, beq_iff_eq] at h
  rcases h with ((((((((h | h) | h) | h) | h) | h) | h) | h) | h) | h <;>
    subst h <;> decide

theorem filter_sep_eq_filter_digit {l : List Char}
    (h : ∀ c ∈ l, c.isDigit = true ∨ c ∈ [' ', '-', '(', ')', '.']) :
    (l.filter fun c => !sepChar c) = l.filter Char.isDigit := by
  induction l with
  | nil => rfl
  | cons c t ih =>
    have hc := h c (List.mem_cons_self c t)
    have ht : ∀ x ∈ t, x.isDigit = true ∨ x ∈ [' ', '-', '(', ')', '.'] :=
      fun x hx => h x (List.mem_cons_of_mem c hx)
    have hpoint : (!sepChar c) = c.isDigit := by
      rcases hc with hd | hs
      · rw [hd]
        cases hsep : sepChar c with
        | false => rfl
        | true => exact absurd hd (by simp [sepChar_not_digit hsep])
      · fin_cases hs <;> decide
    simp only [List.filter_cons, hpoint, ih ht]

theorem phone_core (l : List Char) :
    (exactTenDigits l || matchPlusCode l) = true ↔
    ((l.length = 10 ∧ ∀ c ∈ l, c.isDigit = true) ∨
      (∃ cc rest, l = '+' :: (cc ++ rest) ∧
        1 ≤ cc.length ∧ cc.length ≤ 3 ∧ (∀ c ∈ cc, c.isDigit = true) ∧
        rest.length = 10 ∧ (∀ c ∈ rest, c.isDigit = true))) := by
  constructor
  · intro h
    rcases Bool.or_eq_true _ _ |>.mp h with h10 | hplus
    · left
      simp only [exactTenDigits, Bool.and_eq_true, beq_iff_eq, List.all_eq_true] at h10
      exact h10
    · right
      cases l with
      | nil => exact absurd hplus (by decide)
      | cons c rest =>
        simp only [matchPlusCode, Bool.and_eq_true, beq_iff_eq, List.any_eq_true] at hplus
        obtain ⟨hc, k, hk, hkprop⟩ := hplus
        simp only [Bool.and_eq_true, beq_iff_eq, List.all_eq_true, exactTenDigits] at hkprop
        obtain ⟨⟨htk, hdk⟩, hr10, hrd⟩ := hkprop
        have hk3 : k = 3 ∨ k = 2 ∨ k = 1 := by simpa using hk
        refine ⟨rest.take k, rest.drop k, ?_, ?_, ?_, hdk, hr10, hrd⟩
        · rw [hc, List.take_append_drop]
        · omega
        · omega
  · intro h
    apply Bool.or_eq_true _ _ |>.mpr
    rcases h with ⟨h10, hall⟩ | ⟨cc, rest, heq, h1, h3, hccd, hr10, hrd⟩
    · left
      simp only [exactTenDigits, Bool.and_eq_true, beq_iff_eq, List.all_eq_true]
      exact ⟨h10, hall⟩
    · right
      subst heq
      simp only [matchPlusCode, Bool.and_eq_true, beq_iff_eq, List.any_eq_true]
      refine ⟨trivial, cc.length, ?_, ?_, ?_⟩
      · have hcase : cc.length = 1 ∨ cc.length = 2 ∨ cc.length = 3 := by omega
        rcases hcase with h | h | h <;> rw [h] <;> decide
      · rw [List.take_left]
        simp only [Bool.and_eq_true, beq_iff_eq, List.all_eq_true]
        exact ⟨by simp, hccd⟩
      · rw [List.drop_left]
        simp only [exactTenDigits, Bool.and_eq_true, beq_iff_eq, List.all_eq_true]
        exact ⟨by simp [hr10], hrd⟩

/-- Claim C4: `validate_phone(text)` returns true iff, after removing every
whitespace, hyphen, parenthesis and dot character, the remainder is either
exactly 10 digits or a leading `+` followed by 1-3 digits followed by exactly
10 more digits.  (The embedding is a total function, so it never raises.) -/
theorem validate_phone_matches_spec (t : String) :
    validate_phone t = true ↔ phoneSpec t :=
  phone_core (t.toList.filter fun c => !sepChar c)

/-- Witness for C4: `"+14155551234"` satisfies the spec-side shape, obtained
by applying the equivalence at that concrete input. -/
theorem validate_phone_matches_spec_witness : phoneSpec "+14155551234" :=
  (validate_phone_matches_spec "+14155551234").mp (by decide)

/-- Claim C5: `validate_phone` returns false for every string with exactly 9
or exactly 11 digit characters whose remaining characters are separators
among space, hyphen, parenthesis and dot; and `"12345"` is rejected. -/
theorem validate_phone_rejects_9_and_11 :
    (∀ s : String,
      (∀ c ∈ s.toList, c.isDigit = true ∨ c ∈ [' ', '-', '(', ')', '.']) →
      ((s.toList.filter Char.isDigit).length = 9 ∨
        (s.toList.filter Char.isDigit).length = 11) →
      validate_phone s = false) ∧
    validate_phone "12345" = false := by
  constructor
  · intro s hchars hlen
    show (exactTenDigits (s.toList.filter fun c => !sepChar c) ||
      matchPlusCode (s.toList.filter fun c => !sepChar c)) = false
    rw [filter_sep_eq_filter_digit hchars]
    apply Bool.or_eq_false_iff.mpr
    constructor
    · simp only [exactTenDigits, Bool.and_eq_false_iff, beq_eq_false_iff_ne, ne_eq]
      left
      omega
    · cases hm : s.toList.filter Char.isDigit with
      | nil => rw [hm] at hlen; simp at hlen
      | cons c rest =>
        have hcmem : c ∈ s.toList.filter Char.isDigit := by
          rw [hm]; exact List.mem_cons_self c rest
        have hcdig : c.isDigit = true := List.of_mem_filter hcmem
        have hne : c ≠ '+' := by
          intro hcp; rw [hcp] at hcdig; exact absurd hcdig (by decide)
        simp [matchPlusCode, hne]
  · decide

/-- Witness for C5: the universally quantified part applied at the concrete
nine-digit string `"123-456-789"`. -/
theorem validate_phone_rejects_9_and_11_witness :
    validate_phone "123-456-789" = false :=
  validate_phone_rejects_9_and_11.1 "123-456-789" (by decide) (by decide)

/-! ## Theorems for claims C6 and C9 -/

/-- Claim C6: `extract_complaint_id` tries, in order and stopping at the
first hit: the whole-trimmed-text shortcut, the five anchored phrase
patterns (first capture wins), and the standalone-token scan with its
digit-and-letter rule and stoplist; otherwise none.  In particular
`"622A9F6E"` maps to itself and `"My complaint ID is 7B3K9Q1Z."` maps to
`"7B3K9Q1Z"`. -/
theorem extract_complaint_id_eq (t : String) :
    extract_complaint_id t =
      if fullIdShaped (pyStrip t).toList then some (pyStrip t)
      else
        match idPatterns.findSome? (fun p => searchCap p none t.toList) with
        | some cap => some (String.mk cap)
        | none => tokenScan t.toList := rfl

theorem extract_complaint_id_order :
    (∀ t : String, fullIdShaped (pyStrip t).toList = true →
      extract_complaint_id t = some (pyStrip t)) ∧
    (∀ (t : String) (cap : List Char), fullIdShaped (pyStrip t).toList = false →
      idPatterns.findSome? (fun p => searchCap p none t.toList) = some cap →
      extract_complaint_id t = some (String.mk cap)) ∧
    (∀ t : String, fullIdShaped (pyStrip t).toList = false →
      idPatterns.findSome? (fun p => searchCap p none t.toList) = none →
      extract_complaint_id t = tokenScan t.toList) ∧
    extract_complaint_id "622A9F6E" = some "622A9F6E" ∧
    extract_complaint_id "My complaint ID is 7B3K9Q1Z." = some "7B3K9Q1Z" := by
  refine ⟨?_, ?_, ?_, ?_, ?_⟩
  · intro t h
    rw [extract_complaint_id_eq, if_pos h]
  · intro t cap h hcap
    rw [extract_complaint_id_eq, if_neg (by rw [h]; exact Bool.false_ne_true), hcap]
  · intro t h hcap
    rw [extract_complaint_id_eq, if_neg (by rw [h]; exact Bool.false_ne_true), hcap]
  · decide
  · decide

/-- Witness for C6: the first component applied at the concrete input
`"ABC123"`. -/
theorem extract_complaint_id_order_witness :
    extract_complaint_id "ABC123" = some (pyStrip "ABC123") :=
  extract_complaint_id_order.1 "ABC123" (by decide)

/-- Claim C9: when the whole trimmed utterance is 6+ alphanumeric
characters, it is returned verbatim, with no digit requirement and no
stoplist filtering; in particular `"everywhere"` is returned as an ID. -/
theorem extract_complaint_id_verbatim_shortcut :
    (∀ t : String, 6 ≤ (pyStrip t).toList.length →
      (pyStrip t).toList.all isAlnum = true →
      extract_complaint_id t = some (pyStrip t)) ∧
    extract_complaint_id "everywhere" = some "everywhere" := by
  constructor
  · intro t h1 h2
    have hf : fullIdShaped (pyStrip t).toList = true := by
      unfold fullIdShaped
      rw [Bool.and_eq_true, decide_eq_true_eq]
      exact ⟨h1, h2⟩
    rw [extract_complaint_id_eq, if_pos hf]
  · decide

/-- Witness for C9: the universal part applied at the all-letter stoplist
word `"everywhere"`. -/
theorem extract_complaint_id_verbatim_shortcut_witness :
    extract_complaint_id "  everywhere  " = some (pyStrip "  everywhere  ") :=
  extract_complaint_id_verbatim_shortcut.1 "  everywhere  " (by decide) (by decide)

/-! ## Theorems for claims C3 and C10 -/

theorem setD_self (st : CState) (sid : String) (d : Draft) : setD st sid d sid = some d := by
  simp [setD]

/-- Claim C3: while collecting `phone` (resp. `email`), a turn carrying no
extractable valid phone (resp. email) that itself fails the validator
leaves the whole store untouched and produces the field-specific error
prompt; in particular the turn `"abc"` during phone collection leaves the
draft's phone absent and `current_field` at `"phone"`. -/
theorem invalid_contact_turn_is_rejected :
    (∀ (cr : ApiResponse) (st : CState) (sid query : String) (d : Draft),
      st sid = some d → d.current_field = some "phone" →
      (extract_complaint_info query).phone.any validate_phone = false →
      validate_phone (pyStrip query) = false →
      handle_complaint_filing cr st sid query = (phoneError, st)) ∧
    (∀ (cr : ApiResponse) (st : CState) (sid query : String) (d : Draft),
      st sid = some d → d.current_field = some "email" →
      (extract_complaint_info query).email.any validate_email = false →
      validate_email (pyStrip query) = false →
      handle_complaint_filing cr st sid query = (emailError, st)) ∧
    ((handle_complaint_filing ⟨none, none, none⟩
        (fun k => if k = "s" then
          some ⟨some "Jane Doe", none, none, none, some "phone"⟩ else none)
        "s" "abc").1 = phoneError ∧
      (handle_complaint_filing ⟨none, none, none⟩
        (fun k => if k = "s" then
          some ⟨some "Jane Doe", none, none, none, some "phone"⟩ else none)
        "s" "abc").2 "s" = some ⟨some "Jane Doe", none, none, none, some "phone"⟩) := by
  refine ⟨?_, ?_, ?_⟩
  · intro cr st sid query d hst hcf hex hval
    simp [handle_complaint_filing, hst, hcf, hex, hval, truthy]
  · intro cr st sid query d hst hcf hex hval
    simp [handle_complaint_filing, hst, hcf, hex, hval, truthy]
  · constructor
    · decide
    · decide

/-- Witness for C3: the phone conjunct applied at a concrete state and the
digit-free utterance `"99"` (nine too short to validate). -/
theorem invalid_contact_turn_is_rejected_witness :
    handle_complaint_filing ⟨some "X", none, none⟩
      (fun k => if k = "t" then
        some ⟨some "Ann", none, none, none, some "phone"⟩ else none)
      "t" "99" =
    (phoneError,
      fun k => if k = "t" then
        some ⟨some "Ann", none, none, none, some "phone"⟩ else none) :=
  invalid_contact_turn_is_rejected.1 ⟨some "X", none, none⟩ _ "t" "99"
    ⟨some "Ann", none, none, none, some "phone"⟩ rfl rfl (by decide) (by decide)

/-- Claim C10: `get_next_field` and `is_complaint_complete` use truthiness,
so a stored empty string counts as unfilled; a details turn stripping to
the empty string stores `""`, is re-prompted with the details prompt, and
does not complete or submit the draft. -/
theorem empty_string_field_is_unfilled :
    (∀ (st : CState) (sid : String) (d : Draft),
      st sid = some d → truthy d.name = true → truthy d.phone = true →
      truthy d.email = true → d.details = some "" →
      get_next_field st sid = some "details" ∧ is_complaint_complete st sid = false) ∧
    (∀ (cr : ApiResponse) (st : CState) (sid query : String) (d : Draft),
      st sid = some d → d.current_field = some "details" →
      truthy d.name = true → truthy d.phone = true → truthy d.email = true →
      pyStrip query = "" →
      (handle_complaint_filing cr st sid query).1 = detailsPrompt ∧
      (handle_complaint_filing cr st sid query).2 sid =
        some { d with details := some "", current_field := some "details" }) := by
  constructor
  · intro st sid d hst hn hp he hdet
    constructor
    · simp [get_next_field, hst, draftNext, hn, hp, he, hdet,
        show truthy (some "") = false from rfl]
    · simp [is_complaint_complete, hst, hdet,
        show truthy (some "") = false from rfl]
  · intro cr st sid query d hst hcf hn hp he hq
    constructor
    · simp [handle_complaint_filing, hst, hcf, hq, hn, hp, he,
        update_complaint_data, setField, afterAccept, get_next_field, setD,
        setCurrentField, draftNext,
        show truthy (some "") = false from rfl,
        show truthy (some "details") = true from rfl]
    · simp [handle_complaint_filing, hst, hcf, hq, hn, hp, he,
        update_complaint_data, setField, afterAccept, get_next_field, setD,
        setCurrentField, draftNext,
        show truthy (some "") = false from rfl,
        show truthy (some "details") = true from rfl]

/-- Witness for C10: both conjuncts applied at a concrete filled draft and
the whitespace-only details turn `"   "`. -/
theorem empty_string_field_is_unfilled_witness :
    (get_next_field
        (fun k => if k = "s" then
          some ⟨some "Jane", some "1234567890", some "j@x.co", some "", some "details"⟩
          else none) "s" = some "details") ∧
    ((handle_complaint_filing ⟨some "C1", none, none⟩
        (fun k => if k = "s" then
          some ⟨some "Jane", some "1234567890", some "j@x.co", none, some "details"⟩
          else none) "s" "   ").1 = detailsPrompt) := by
  constructor
  · exact (empty_string_field_is_unfilled.1
      (fun k => if k = "s" then
        some ⟨some "Jane", some "1234567890", some "j@x.co", some "", some "details"⟩
        else none) "s"
      ⟨some "Jane", some "1234567890", some "j@x.co", some "", some "details"⟩
      rfl (by decide) (by decide) (by decide) rfl).1
  · exact (empty_string_field_is_unfilled.2 ⟨some "C1", none, none⟩
      (fun k => if k = "s" then
        some ⟨some "Jane", some "1234567890", some "j@x.co", none, some "details"⟩
        else none) "s" "   "
      ⟨some "Jane", some "1234567890", some "j@x.co", none, some "details"⟩
      rfl rfl (by decide) (by decide) (by decide) (by decide)).1

/-! ## Theorems for claim C1

The source clears the draft unconditionally before inspecting the create
collaborator's reply (main.py lines 288-298), so on create-failure the
error text is surfaced but the draft is gone. -/

/-- Counterexample to claim C1 as stated: on a completing turn whose create
call reports an error, the response does embed the error text, yet
`get_complaint_data` afterwards returns none — the draft was cleared, not
preserved. -/
theorem create_failure_preserves_draft_cex :
    (handle_complaint_filing ⟨none, none, some "API error: boom"⟩
      (fun k => if k = "s" then
        some ⟨some "Jane Doe", some "1234567890", some "jane@example.com",
          none, some "details"⟩ else none)
      "s" "It broke").1 =
      "There was an issue registering your complaint: API error: boom" ∧
    (handle_complaint_filing ⟨none, none, some "API error: boom"⟩
      (fun k => if k = "s" then
        some ⟨some "Jane Doe", some "1234567890", some "jane@example.com",
          none, some "details"⟩ else none)
      "s" "It broke").2 "s" = none := by
  constructor
  · decide
  · decide

/-- Claim C1 amended: on complaint-create failure the turn's response is an
error message embedding the collaborator's error text, but the session's
draft IS cleared from the store: `get_complaint_data` afterwards returns
none. -/
theorem create_failure_reports_error_and_clears :
    ∀ (st : CState) (sid query : String) (d : Draft) (e : String),
      st sid = some d → d.current_field = some "details" →
      truthy d.name = true → truthy d.phone = true → truthy d.email = true →
      pyStrip query ≠ "" →
      (handle_complaint_filing ⟨none, none, some e⟩ st sid query).1 =
        "There was an issue registering your complaint: " ++ e ∧
      (handle_complaint_filing ⟨none, none, some e⟩ st sid query).2 sid = none := by
  intro st sid query d e hst hcf hn hp he hq
  have hq' : truthy (some (pyStrip query)) = true := by
    simp [truthy, bne_iff_ne, hq]
  constructor
  · simp [handle_complaint_filing, hst, hcf, hn, hp, he, hq',
      update_complaint_data, setField, afterAccept, get_next_field, setD,
      setCurrentField, draftNext, finishFiling, clear_complaint_data, delD,
      submissionResponse, show truthy (some "details") = true from rfl]
  · simp [handle_complaint_filing, hst, hcf, hn, hp, he, hq',
      update_complaint_data, setField, afterAccept, get_next_field, setD,
      setCurrentField, draftNext, finishFiling, clear_complaint_data, delD,
      submissionResponse, show truthy (some "details") = true from rfl]

/-- Witness for the amended C1 at a concrete session, draft and failing
create reply. -/
theorem create_failure_reports_error_and_clears_witness :
    (handle_complaint_filing ⟨none, none, some "timeout"⟩
      (fun k => if k = "u" then
        some ⟨some "Bob", some "0987654321", some "bob@mail.com",
          none, some "details"⟩ else none)
      "u" "Broken screen").1 =
      "There was an issue registering your complaint: " ++ "timeout" ∧
    (handle_complaint_filing ⟨none, none, some "timeout"⟩
      (fun k => if k = "u" then
        some ⟨some "Bob", some "0987654321", some "bob@mail.com",
          none, some "details"⟩ else none)
      "u" "Broken screen").2 "u" = none :=
  create_failure_reports_error_and_clears _ "u" "Broken screen"
    ⟨some "Bob", some "0987654321", some "bob@mail.com", none, some "details"⟩
    "timeout" rfl rfl (by decide) (by decide) (by decide) (by decide)

/-! ## Theorems for claim C2 -/

theorem filing_turn_start {cr : ApiResponse} {st : CState} {sid u : String}
    (h : st sid = none)
    (hu : extract_complaint_info u = ⟨none, none, none⟩) :
    (handle_complaint_filing cr st sid u).2 sid = some freshDraft := by
  simp [handle_complaint_filing, h, hu, applyExtracted, start_complaint_filing, setD]

theorem filing_turn_name {cr : ApiResponse} {st : CState} {sid : String}
    (h : st sid = some freshDraft) :
    (handle_complaint_filing cr st sid "Jane Doe").2 sid =
      some ⟨some "Jane Doe", none, none, none, some "phone"⟩ := by
  simp [handle_complaint_filing, h, freshDraft, truthy, draftNext,
    update_complaint_data, setField, afterAccept, get_next_field, setD,
    setCurrentField,
    show extract_complaint_info "Jane Doe" =
      ⟨none, none, none⟩ from by decide,
    show pyWords (pyStrip "Jane Doe") = ["Jane", "Doe"] from by decide,
    show pyWords "Jane Doe" = ["Jane", "Doe"] from by decide,
    show pyStrip "Jane Doe" = "Jane Doe" from by decide,
    show ("Jane Doe".toList.contains '@') = false from by decide,
    show ("Jane Doe".toList.any Char.isDigit) = false from by decide]

theorem filing_turn_phone {cr : ApiResponse} {st : CState} {sid : String}
    (h : st sid = some ⟨some "Jane Doe", none, none, none, some "phone"⟩) :
    (handle_complaint_filing cr st sid "1234567890").2 sid =
      some ⟨some "Jane Doe", some "1234567890", none, none, some "email"⟩ := by
  simp [handle_complaint_filing, h, truthy, draftNext,
    update_complaint_data, setField, afterAccept, get_next_field, setD,
    setCurrentField,
    show extract_complaint_info "1234567890" =
      ⟨none, none, some "1234567890"⟩ from by decide,
    show validate_phone "1234567890" = true from by decide]

theorem filing_turn_email {cr : ApiResponse} {st : CState} {sid : String}
    (h : st sid = some ⟨some "Jane Doe", some "1234567890", none, none, some "email"⟩) :
    (handle_complaint_filing cr st sid "jane@example.com").2 sid =
      some ⟨some "Jane Doe", some "1234567890", some "jane@example.com",
        none, some "details"⟩ := by
  simp [handle_complaint_filing, h, truthy, draftNext,
    update_complaint_data, setField, afterAccept, get_next_field, setD,
    setCurrentField,
    show extract_complaint_info "jane@example.com" =
      ⟨none, some "jane@example.com", none⟩ from by decide,
    show validate_email "jane@example.com" = true from by decide]

theorem filing_turn_details {cr : ApiResponse} {st : CState} {sid detail : String}
    (h : st sid = some ⟨some "Jane Doe", some "1234567890", some "jane@example.com",
      none, some "details"⟩)
    (hd : pyStrip detail ≠ "") :
    (handle_complaint_filing cr st sid detail).1 = submissionResponse cr ∧
    (handle_complaint_filing cr st sid detail).2 sid = none := by
  constructor
  · simp [handle_complaint_filing, h, truthy, draftNext, hd,
      update_complaint_data, setField, afterAccept, get_next_field, setD,
      setCurrentField, finishFiling, clear_complaint_data, delD]
  · simp [handle_complaint_filing, h, truthy, draftNext, hd,
      update_complaint_data, setField, afterAccept, get_next_field, setD,
      setCurrentField, finishFiling, clear_complaint_data, delD]

/-- Claim C2: from a session with no draft, a filing-intent turn (carrying
no extractable contact data) then the turns `"Jane Doe"`, `"1234567890"`,
`"jane@example.com"` leave the draft with name, phone and email set and
`current_field = "details"`; a fourth free-text turn (non-blank) completes
the draft, triggers submission (the response is determined by the create
collaborator's reply), and afterwards `get_complaint_data` returns none. -/
theorem filing_happy_path :
    ∀ (cr : ApiResponse) (st0 : CState) (sid u detail : String),
      st0 sid = none →
      extract_complaint_info u = ⟨none, none, none⟩ →
      pyStrip detail ≠ "" →
      ((handle_complaint_filing cr
          (handle_complaint_filing cr
            (handle_complaint_filing cr
              (handle_complaint_filing cr st0 sid u).2 sid "Jane Doe").2
            sid "1234567890").2
          sid "jane@example.com").2 sid =
        some ⟨some "Jane Doe", some "1234567890", some "jane@example.com",
          none, some "details"⟩) ∧
      ((handle_complaint_filing cr
          (handle_complaint_filing cr
            (handle_complaint_filing cr
              (handle_complaint_filing cr
                (handle_complaint_filing cr st0 sid u).2 sid "Jane Doe").2
              sid "1234567890").2
            sid "jane@example.com").2
          sid detail).1 = submissionResponse cr) ∧
      ((handle_complaint_filing cr
          (handle_complaint_filing cr
            (handle_complaint_filing cr
              (handle_complaint_filing cr
                (handle_complaint_filing cr st0 sid u).2 sid "Jane Doe").2
              sid "1234567890").2
            sid "jane@example.com").2
          sid detail).2 sid = none) := by
  intro cr st0 sid u detail h0 hu hd
  have h1 := @filing_turn_start cr st0 sid u h0 hu
  have h2 := @filing_turn_name cr _ sid h1
  have h3 := @filing_turn_phone cr _ sid h2
  have h4 := @filing_turn_email cr _ sid h3
  have h5 := @filing_turn_details cr _ sid detail h4 hd
  exact ⟨h4, h5.1, h5.2⟩

/-- Witness for C2 at a concrete session, filing-intent utterance and
free-text details turn. -/
theorem filing_happy_path_witness :
    ((handle_complaint_filing ⟨some "C7", none, none⟩
        (handle_complaint_filing ⟨some "C7", none, none⟩
          (handle_complaint_filing ⟨some "C7", none, none⟩
            (handle_complaint_filing ⟨some "C7", none, none⟩ (fun _ => none)
              "s" "I want to file a complaint").2 "s" "Jane Doe").2
          "s" "1234567890").2
        "s" "jane@example.com").2 "s" =
      some ⟨some "Jane Doe", some "1234567890", some "jane@example.com",
        none, some "details"⟩) ∧
    ((handle_complaint_filing ⟨some "C7", none, none⟩
        (handle_complaint_filing ⟨some "C7", none, none⟩
          (handle_complaint_filing ⟨some "C7", none, none⟩
            (handle_complaint_filing ⟨some "C7", none, none⟩
              (handle_complaint_filing ⟨some "C7", none, none⟩ (fun _ => none)
                "s" "I want to file a complaint").2 "s" "Jane Doe").2
            "s" "1234567890").2
          "s" "jane@example.com").2
        "s" "The screen cracked").1 = submissionResponse ⟨some "C7", none, none⟩) ∧
    ((handle_complaint_filing ⟨some "C7", none, none⟩
        (handle_complaint_filing ⟨some "C7", none, none⟩
          (handle_complaint_filing ⟨some "C7", none, none⟩
            (handle_complaint_filing ⟨some "C7", none, none⟩
              (handle_complaint_filing ⟨some "C7", none, none⟩ (fun _ => none)
                "s" "I want to file a complaint").2 "s" "Jane Doe").2
            "s" "1234567890").2
          "s" "jane@example.com").2
        "s" "The screen cracked").2 "s" = none) :=
  filing_happy_path ⟨some "C7", none, none⟩ (fun _ => none) "s"
    "I want to file a complaint" "The screen cracked" rfl (by decide) (by decide)

/-! ## Theorems for claims C7 and C8 -/

/-- Claim C7: when a draft exists for the session, the dispatcher routes
the turn straight to the slot-filling continuation; neither intent
classifier, nor the retrieval-side complaint-ID extraction, nor the
document-Q&A fallback is invoked, and the outcome does not depend on any
environment component other than the create collaborator's reply. -/
theorem draft_preempts_intent :
    ∀ (env : Env) (st : CState) (sid query : String),
      (st sid).isSome = true →
      (dispatch env st sid query).1 =
        (handle_complaint_filing env.createResult st sid query).1 ∧
      (dispatch env st sid query).2.1 =
        (handle_complaint_filing env.createResult st sid query).2 ∧
      (dispatch env st sid query).2.2 = [Call.filingHandler] ∧
      Call.intentFiling ∉ (dispatch env st sid query).2.2 ∧
      Call.intentRetrieving ∉ (dispatch env st sid query).2.2 ∧
      Call.extractId ∉ (dispatch env st sid query).2.2 ∧
      Call.docQA ∉ (dispatch env st sid query).2.2 ∧
      (∀ env2 : Env, env2.createResult = env.createResult →
        dispatch env2 st sid query = dispatch env st sid query) := by
  intro env st sid query h
  refine ⟨?_, ?_, ?_, ?_, ?_, ?_, ?_, ?_⟩
  · simp [dispatch, h]
  · simp [dispatch, h]
  · simp [dispatch, h]
  · simp [dispatch, h]
  · simp [dispatch, h]
  · simp [dispatch, h]
  · simp [dispatch, h]
  · intro env2 hcr
    simp [dispatch, h, hcr]

/-- Witness for C7 at a concrete environment, a session holding a fresh
draft, and an utterance that would otherwise classify as retrieval. -/
theorem draft_preempts_intent_witness :
    (dispatch
      ⟨false, false, id, ⟨fun _ => none, fun _ => none, false, fun _ => false, fun _ => false⟩,
        id, id, ⟨none, none, none⟩,
        fun _ => ⟨none, none, none, none, none, none, none, none⟩, fun _ => none⟩
      (fun k => if k = "s" then some freshDraft else none) "s"
      "what is my complaint status").2.2 = [Call.filingHandler] ∧
    (dispatch
      ⟨false, false, id, ⟨fun _ => none, fun _ => none, false, fun _ => false, fun _ => false⟩,
        id, id, ⟨none, none, none⟩,
        fun _ => ⟨none, none, none, none, none, none, none, none⟩, fun _ => none⟩
      (fun k => if k = "s" then some freshDraft else none) "s"
      "what is my complaint status").1 =
      (handle_complaint_filing ⟨none, none, none⟩
        (fun k => if k = "s" then some freshDraft else none) "s"
        "what is my complaint status").1 :=
  ⟨(draft_preempts_intent
      ⟨false, false, id, ⟨fun _ => none, fun _ => none, false, fun _ => false, fun _ => false⟩,
        id, id, ⟨none, none, none⟩,
        fun _ => ⟨none, none, none, none, none, none, none, none⟩, fun _ => none⟩
      (fun k => if k = "s" then some freshDraft else none) "s"
      "what is my complaint status" (by decide)).2.2.1,
   (draft_preempts_intent
      ⟨false, false, id, ⟨fun _ => none, fun _ => none, false, fun _ => false, fun _ => false⟩,
        id, id, ⟨none, none, none⟩,
        fun _ => ⟨none, none, none, none, none, none, none, none⟩, fun _ => none⟩
      (fun k => if k = "s" then some freshDraft else none) "s"
      "what is my complaint status" (by decide)).1⟩

/-- Claim C8: whenever one of the fixed filing regex patterns matches the
utterance, `is_filing_complaint` returns true for every threshold and every
state of the fuzzy and keyword/verb collaborators (the pattern signal
short-circuits them); in particular
`"I want to file a complaint about billing"` is classified as filing. -/
theorem pattern_hit_forces_filing_intent :
    (∀ (env : IntentEnv) (text : String) (threshold : Rat),
      FILING_PATTERNS.any (fun p => searchB p none text.toList) = true →
      is_filing_complaint env text threshold = true) ∧
    (∀ (env : IntentEnv) (threshold : Rat),
      is_filing_complaint env "I want to file a complaint about billing" threshold = true) := by
  constructor
  · intro env text threshold h
    unfold is_filing_complaint
    rw [if_pos h]
  · intro env threshold
    unfold is_filing_complaint
    rw [if_pos (show FILING_PATTERNS.any
      (fun p => searchB p none ("I want to file a complaint about billing").toList) = true
      from by decide)]

/-- Witness for C8: the universal pattern-signal part applied at a concrete
oracle environment, utterance and threshold. -/
theorem pattern_hit_forces_filing_intent_witness :
    is_filing_complaint
      ⟨fun _ => none, fun _ => none, false, fun _ => false, fun _ => false⟩
      "please register a complaint" 1 = true :=
  pattern_hit_forces_filing_intent.1
    ⟨fun _ => none, fun _ => none, false, fun _ => false, fun _ => false⟩
    "please register a complaint" 1 (by decide)
